import Mathlib

/-
Verification development for the langgraph-routing-example repository.

This file shallowly embeds the routing / handoff core of the repository:
the agent registry (src/agent_experiment/core/registry.py), the Strategy-A
structured-decision router (src/agent_experiment/examples/router_handoff_command.py),
the Strategy-B handoff tools and agent functions
(src/agent_experiment/core/workflow.py, 02_router_handoff_tools.py), and the
tool-style agents of 03_agent_handoff_tools.py.  The language-generation
service is externalized as an oracle mapping a request (a list of messages)
to either a reply message or a service error, because the programs only ever
inspect the outcome of that call.
-/

namespace AgentHandoff

/-- Role of a chat message, mirroring the langchain message classes used by the
source (HumanMessage, AIMessage, SystemMessage, and tool messages). -/
inductive Role where
  | user
  | assistant
  | system
  | tool
  deriving DecidableEq, Repr

/-- A chat message.  `name` and `tool_call_id` model the optional fields set on
tool messages by the handoff tools; `tool_calls` models the `tool_calls`
attribute that `getattr(msg, "tool_calls", None)` reads (empty list when the
message carries no tool calls). -/
structure Msg where
  role : Role
  content : String
  name : Option String := none
  tool_call_id : Option String := none
  tool_calls : List String := []
  deriving DecidableEq, Repr

/-- HumanMessage(content=...) -/
def humanMsg (content : String) : Msg := { role := Role.user, content := content }

/-- AIMessage(content=...) -/
def aiMsg (content : String) : Msg := { role := Role.assistant, content := content }

/-- SystemMessage(content=...) -/
def systemMsg (content : String) : Msg := { role := Role.system, content := content }

/-- Errors raised by the underlying generation-service call (`model.invoke`). -/
inductive ServiceError where
  | networkError
  | malformedResponse
  deriving DecidableEq, Repr

/-- The generation service, externalized: a map from the request (the message
list handed to `model.invoke`) to either the reply message or a failure. -/
def Service : Type := List Msg → Except ServiceError Msg

/-- AgentConfig (src/agent_experiment/core/config.py lines 29-35). -/
structure AgentConfig where
  name : String
  description : String
  system_message : String
  emoji : String := "🤖"
  deriving DecidableEq, Repr

/-- Insertion into a Python `dict` represented as an ordered association list:
updating an existing key keeps its position and replaces the value; a new key
is appended at the end (Python dicts preserve insertion order). -/
def dictInsert (k : String) (v : AgentConfig) :
    List (String × AgentConfig) → List (String × AgentConfig)
  | [] => [(k, v)]
  | (k', v') :: rest =>
    if k' = k then (k, v) :: rest else (k', v') :: dictInsert k v rest

/-- Python `dict.get(name)`: the value at the first (unique) matching key, or
`none` when the key is absent. -/
def assocLookup (n : String) : List (String × AgentConfig) → Option AgentConfig
  | [] => none
  | (k, v) :: rest => if k = n then some v else assocLookup n rest

/-- AgentRegistry (src/agent_experiment/core/registry.py lines 8-23): a
`dict[str, AgentConfig]` keyed by agent name. -/
structure AgentRegistry where
  agents : List (String × AgentConfig) := []
  deriving DecidableEq, Repr

/-- `register_agent`: `self.agents[config.name] = config` (registry.py line 15). -/
def AgentRegistry.register_agent (r : AgentRegistry) (config : AgentConfig) : AgentRegistry :=
  { agents := dictInsert config.name config r.agents }

/-- `get_agent_names`: `list(self.agents.keys())` (registry.py line 19). -/
def AgentRegistry.get_agent_names (r : AgentRegistry) : List String :=
  r.agents.map Prod.fst

/-- `get_agent_config`: `self.agents.get(name)` (registry.py line 23). -/
def AgentRegistry.get_agent_config (r : AgentRegistry) (name : String) : Option AgentConfig :=
  assocLookup name r.agents

/-- The support agent configuration registered by `create_default_registry`
(registry.py lines 30-44). -/
def supportAgentConfig : AgentConfig :=
  { name := "support_agent"
    description := "Transfer to support agent for general help and customer service."
    system_message := "You are a Support Agent providing customer service and general help.\n\nProvide helpful, friendly support for the user\x27s request. Focus on:\n- General questions and basic support\n- Account issues and routine inquiries\n- Product information and guidance\n\nGive a direct, helpful response to the user\x27s question."
    emoji := "🤖" }

/-- The research agent configuration registered by `create_default_registry`
(registry.py lines 46-60). -/
def researchAgentConfig : AgentConfig :=
  { name := "research_agent"
    description := "Transfer to research agent for analysis and detailed research."
    system_message := "You are a Research Agent specializing in analysis and detailed insights.\n\nProvide thorough research and analysis for the user\x27s request. Focus on:\n- In-depth research and analysis\n- Complex topic investigation\n- Data-driven insights and recommendations\n\nGive a comprehensive, well-researched response to the user\x27s question."
    emoji := "🔬" }

/-- The manager agent configuration registered by `create_default_registry`
(registry.py lines 62-76). -/
def managerAgentConfig : AgentConfig :=
  { name := "manager_agent"
    description := "Transfer to manager agent for escalations and strategic decisions."
    system_message := "You are a Manager Agent handling strategic decisions and escalations.\n\nProvide authoritative guidance for the user\x27s request. Focus on:\n- Strategic guidance and decision making\n- Escalation resolution\n- High-level policy and direction\n\nGive a clear, decisive response to the user\x27s question."
    emoji := "👔" }

/-- `create_default_registry` (registry.py lines 26-78): registers the support,
research and manager agents in that order. -/
def create_default_registry : AgentRegistry :=
  (((AgentRegistry.mk []).register_agent supportAgentConfig).register_agent
      researchAgentConfig).register_agent managerAgentConfig

/-! ### Strategy A: structured-decision router
(src/agent_experiment/examples/router_handoff_command.py) -/

/-- Python `messages[-3:]` / `messages[-2:]`: the last `n` elements of a list
(the whole list when it is shorter than `n`). -/
def takeLast (n : Nat) (l : List Msg) : List Msg := l.drop (l.length - n)

/-- The admissible values of `NextAgent.next_agent`: the hardcoded
`Literal["support_agent", "research_agent", "manager_agent", "__end__"]` of
router_handoff_command.py lines 47-53. -/
def nextAgentLiterals : List String :=
  ["support_agent", "research_agent", "manager_agent", "__end__"]

/-- NextAgent (router_handoff_command.py lines 47-53): the structured routing
decision, whose `next_agent` field is constrained to `nextAgentLiterals`. -/
structure NextAgent where
  next_agent : String
  reasoning : String
  deriving DecidableEq, Repr

/-- Errors raised at the router node. `routingProtocolViolation` is the
structured-output validation failure raised when the decision service returns a
label outside the `NextAgent` literal set (the RoutingProtocolViolation of the
error taxonomy); `generationServiceError` is a failed decision call. -/
inductive RouterError where
  | routingProtocolViolation
  | generationServiceError (e : ServiceError)
  deriving DecidableEq, Repr

/-- Modelled from the spec: the structured-output layer (`with_structured_output(NextAgent)`
lives in the external langchain library) validates the returned label against
the `NextAgent` schema and raises on any label outside the literal set; the
literal set itself is taken from `NextAgent` in the source. -/
def parseNextAgent (label reasoning : String) : Except RouterError NextAgent :=
  if label ∈ nextAgentLiterals then Except.ok ⟨label, reasoning⟩
  else Except.error RouterError.routingProtocolViolation

/-- AgentState of router_handoff_command.py lines 56-58: the message list plus
the `current_agent` scalar. -/
structure AgentState where
  messages : List Msg
  current_agent : String
  deriving DecidableEq, Repr

/-- The langgraph END sentinel, the string "__end__". -/
def ENDNode : String := "__end__"

/-- Text of the router system prompt before the `{current_agent}` interpolation
(router_handoff_command.py lines 96-102). -/
def routerPromptHead : String :=
  "You are a supervisor routing conversations between specialized agents:\n\n- **support_agent**: Handles general questions, basic help, and customer support\n- **research_agent**: Conducts analysis, research, and provides detailed insights\n- **manager_agent**: Makes decisions, handles escalations, and provides strategic guidance\n\nCurrent conversation context: The user is currently being helped by "

/-- Text of the router system prompt after the `{current_agent}` interpolation
(router_handoff_command.py lines 102-111). -/
def routerPromptTail : String :=
  ".\n\nBased on the conversation, determine which agent should handle the next interaction:\n1. Route to **support_agent** for general help, basic questions, routine matters\n2. Route to **research_agent** for research, analysis, investigation, complex topics\n3. Route to **manager_agent** for decisions, escalations, strategic matters, urgent issues\n4. Route to **__end__** if the conversation is clearly finished (user says goodbye, thanks, etc.)\n\nConsider the user\x27s latest message and the conversation flow to make the best routing decision.\n"

/-- The router system prompt f-string (router_handoff_command.py lines 96-111). -/
def routerSystemPrompt (current_agent : String) : String :=
  routerPromptHead ++ current_agent ++ routerPromptTail

/-- The request the router hands to the decision service:
`model.invoke([SystemMessage(content=system_prompt), *messages[-3:]])`
(router_handoff_command.py lines 114-119). -/
def routerRequest (s : AgentState) : List Msg :=
  systemMsg (routerSystemPrompt s.current_agent) :: takeLast 3 s.messages

/-- Python `str.title()` applied to one word: first character upper-cased, the
rest lower-cased. -/
def capWord (w : List Char) : List Char :=
  match w with
  | [] => []
  | c :: rest => c.toUpper :: rest.map Char.toLower

/-- Splitting a character list on spaces (the word boundaries of the labels the
router title-cases, which contain no other separators). -/
def splitOnSpace : List Char → List (List Char)
  | [] => [[]]
  | c :: rest =>
    match splitOnSpace rest with
    | [] => [[]]
    | w :: ws => if c = ' ' then [] :: w :: ws else (c :: w) :: ws

/-- Python `s.replace("_", " ").title()` as used by the router update
(router_handoff_command.py line 129): underscores become spaces, then each
space-separated word is capitalized. -/
def pyTitle (s : String) : String :=
  let spaced := s.toList.map (fun c => if c = '_' then ' ' else c)
  String.intercalate " " ((splitOnSpace spaced).map (fun w => String.mk (capWord w)))

/-- The Command value returned by the router: the `goto` target and the
optional `current_agent` update (no message update). -/
structure RouterCommand where
  goto : String
  updateCurrentAgent : Option String
  deriving DecidableEq, Repr

/-- The router node (router_handoff_command.py lines 81-130), with the decision
service outcome externalized as the raw `(label, reasoning)` pair it returned.
The structured-output layer validates the label; on success the router returns
`Command(goto=END)` for the terminate sentinel, and otherwise
`Command(goto=label, update={"current_agent": label.replace("_"," ").title()})`. -/
def router (label reasoning : String) : Except RouterError RouterCommand :=
  match parseNextAgent label reasoning with
  | Except.error e => Except.error e
  | Except.ok response =>
    if response.next_agent = ENDNode then
      Except.ok { goto := ENDNode, updateCurrentAgent := none }
    else
      Except.ok { goto := response.next_agent
                  updateCurrentAgent := some (pyTitle response.next_agent) }

/-- Applying a router Command to the thread state: the `current_agent` update
is merged (via the `update_current_agent` reducer, which just takes the new
value); the message list is untouched because the router command carries no
message update. -/
def applyRouterCommand (s : AgentState) (cmd : RouterCommand) : AgentState :=
  { s with current_agent := cmd.updateCurrentAgent.getD s.current_agent }

/-- One router step at the turn boundary: on a router error the error is
surfaced and the state is left exactly as it was (no partial transition is
committed); on success the command is applied. -/
def processTurn (s : AgentState) (label reasoning : String) :
    AgentState × Option RouterError :=
  match router label reasoning with
  | Except.error e => (s, some e)
  | Except.ok cmd => (applyRouterCommand s cmd, none)

/-! ### Strategy B: tool-invocation handoff
(src/agent_experiment/core/workflow.py, mirrored in 02_router_handoff_tools.py) -/

/-- The Command returned by a handoff tool: the `goto` target, the full updated
message list (`state["messages"] + [tool_message]`), and the `graph=Command.PARENT`
flag. -/
structure HandoffCommand where
  goto : String
  updateMessages : List Msg
  parentGraph : Bool
  deriving DecidableEq, Repr

/-- A handoff tool: its registered callable name, its description, and the body
run when the model invokes it (given the injected state messages and the
invoking tool-call id). -/
structure HandoffTool where
  name : String
  description : String
  run : List Msg → String → HandoffCommand

/-- `create_handoff_tool` (workflow.py lines 20-39): builds the tool named
`transfer_to_<agent_name>` whose body appends the synthetic acknowledgement
tool message and returns `Command(goto=agent_name, ..., graph=Command.PARENT)`. -/
def create_handoff_tool (agent_name : String) (description : Option String) : HandoffTool :=
  { name := "transfer_to_" ++ agent_name
    description := description.getD ("Transfer to " ++ agent_name)
    run := fun messages tool_call_id =>
      { goto := agent_name
        updateMessages := messages ++
          [{ role := Role.tool
             content := "Successfully transferred to " ++ agent_name
             name := some ("transfer_to_" ++ agent_name)
             tool_call_id := some tool_call_id }]
        parentGraph := true } }

/-- `create_handoff_tools` (workflow.py lines 79-88): one handoff tool per
registered agent, passing the agent description. -/
def create_handoff_tools (r : AgentRegistry) : List HandoffTool :=
  r.agents.map (fun p => create_handoff_tool p.1 (some p.2.description))

/-- Result of an agent function created by `create_agent_function`: either the
bare string returned on the no-user-message edge case, or the normal
`{"messages": [response]}` state-update dictionary. -/
inductive AgentFnResult where
  | bare (s : String)
  | update (messages : List Msg)
  deriving DecidableEq, Repr

/-- Predicate for `isinstance(msg, HumanMessage)`. -/
def isHuman (m : Msg) : Bool := m.role == Role.user

/-- The request built by an agent function: the configured system message plus
the most recent user message. -/
def agentFnRequest (cfg : AgentConfig) (user_request : Msg) : List Msg :=
  [systemMsg cfg.system_message, user_request]

/-- The agent function produced by `create_agent_function` (workflow.py lines
42-76; identical in 02_router_handoff_tools.py lines 147-181).  It filters the
state messages to the HumanMessages; with none present it returns the bare
string "No user message found.".  Otherwise it invokes the model on the system
message plus the last user message; there is no try/except around the call, so
a service failure propagates to the caller. -/
def agent_function (cfg : AgentConfig) (svc : Service) (messages : List Msg) :
    Except ServiceError AgentFnResult :=
  let user_messages := messages.filter isHuman
  match user_messages.getLast? with
  | none => Except.ok (AgentFnResult.bare "No user message found.")
  | some user_request =>
    match svc (agentFnRequest cfg user_request) with
    | Except.error e => Except.error e
    | Except.ok response => Except.ok (AgentFnResult.update [response])

/-! ### Tool-style agents of 03_agent_handoff_tools.py -/

/-- Result of one of the tool-style agents: the returned reply string and the
`current_agent` value the agent wrote into the injected state. -/
structure AgentToolResult where
  reply : String
  current_agent : String
  deriving DecidableEq, Repr

/-- The context filter shared by the three agents of 03_agent_handoff_tools.py:
keep HumanMessage/AIMessage values without tool calls, then take the last two
(`[... for msg in messages if isinstance(msg, (HumanMessage, AIMessage)) and not
getattr(msg, "tool_calls", None)][-2:]`). -/
def relevantMessages (messages : List Msg) : List Msg :=
  takeLast 2 (messages.filter
    (fun m => (m.role == Role.user || m.role == Role.assistant) && m.tool_calls.isEmpty))

/-- System message of `support_agent` (03_agent_handoff_tools.py lines 66-69). -/
def supportToolSystemMessage : String :=
  "You are a Support Agent. You help users with general questions,\n        provide customer support, and handle routine inquiries. Be helpful and friendly in your responses.\n\n        Provide direct assistance for basic questions and customer support issues."

/-- Canned fallback of `support_agent` (03_agent_handoff_tools.py lines 88-91). -/
def supportFallback : String :=
  "[Support Agent]: I apologize, but I\x27m experiencing technical difficulties. How can I help you today?"

/-- `support_agent` (03_agent_handoff_tools.py lines 52-93): invokes the model
inside a try block; on any exception it sets `current_agent` and returns the
canned fallback; on success it returns the bracketed reply. -/
def support_agent (svc : Service) (messages : List Msg) : AgentToolResult :=
  match svc (systemMsg supportToolSystemMessage :: relevantMessages messages) with
  | Except.error _ => { reply := supportFallback, current_agent := "Support Agent" }
  | Except.ok response =>
    { reply := "[Support Agent]: " ++ response.content, current_agent := "Support Agent" }

/-- System message of `research_agent` (03_agent_handoff_tools.py lines 110-114). -/
def researchToolSystemMessage : String :=
  "You are a Research Agent. You are a research specialist who analyzes\n        complex topics and provides detailed insights. Focus on providing thorough, well-researched\n        responses with analysis and context.\n\n        Conduct deep analysis and provide comprehensive research-based responses."

/-- Canned fallback of `research_agent` (03_agent_handoff_tools.py lines 133-136). -/
def researchFallback : String :=
  "[Research Agent]: I apologize, but I\x27m experiencing technical difficulties. Let me help you with your research needs."

/-- `research_agent` (03_agent_handoff_tools.py lines 96-138). -/
def research_agent (svc : Service) (messages : List Msg) : AgentToolResult :=
  match svc (systemMsg researchToolSystemMessage :: relevantMessages messages) with
  | Except.error _ => { reply := researchFallback, current_agent := "Research Agent" }
  | Except.ok response =>
    { reply := "[Research Agent]: " ++ response.content, current_agent := "Research Agent" }

/-- System message of `manager_agent` (03_agent_handoff_tools.py lines 155-159). -/
def managerToolSystemMessage : String :=
  "You are a Manager Agent. You are a senior manager who handles escalated\n        issues and makes strategic decisions. Provide authoritative guidance and make clear decisions\n        when needed.\n\n        Focus on high-level decision making and strategic guidance."

/-- Canned fallback of `manager_agent` (03_agent_handoff_tools.py lines 178-181). -/
def managerFallback : String :=
  "[Manager Agent]: I apologize, but I\x27m experiencing technical difficulties. Let me help you with management decisions."

/-- `manager_agent` (03_agent_handoff_tools.py lines 141-183). -/
def manager_agent (svc : Service) (messages : List Msg) : AgentToolResult :=
  match svc (systemMsg managerToolSystemMessage :: relevantMessages messages) with
  | Except.error _ => { reply := managerFallback, current_agent := "Manager Agent" }
  | Except.ok response =>
    { reply := "[Manager Agent]: " ++ response.content, current_agent := "Manager Agent" }

/-! ### Thread operations and the append-only invariant -/

/-- The operations the examples apply to a conversation thread.  `userTurn` is
the orchestrator feeding `{"messages": [HumanMessage(...)]}` into the thread;
`routerCommand` is the Strategy-A router command (a `current_agent` update, or
none for END); `agentReply` is a `create_agent` node returning
`{"messages": [AIMessage(f"[{name}]: {content}")], "current_agent": name}`
(router_handoff_command.py lines 61-78); `handoffTransfer` is a handoff tool
appending its acknowledgement tool message (workflow.py lines 29-37). -/
inductive ThreadOp where
  | userTurn (m : Msg)
  | routerCommand (cmd : RouterCommand)
  | agentReply (name : String) (content : String)
  | handoffTransfer (agent : String) (tool_call_id : String)

/-- Modelled from the spec: the `add_messages` reducer lives in the external
orchestration library; per the spec's append-only contract it merges a
returned `messages` update by appending the fresh turns and never removes or
mutates existing ones.  Each operation is the applied form of the update the
source code returns. -/
def applyOp (s : AgentState) : ThreadOp → AgentState
  | ThreadOp.userTurn m => { s with messages := s.messages ++ [m] }
  | ThreadOp.routerCommand cmd => applyRouterCommand s cmd
  | ThreadOp.agentReply name content =>
    { messages := s.messages ++ [aiMsg ("[" ++ name ++ "]: " ++ content)]
      current_agent := name }
  | ThreadOp.handoffTransfer agent tool_call_id =>
    { s with messages := ((create_handoff_tool agent none).run s.messages tool_call_id).updateMessages }

/-- A whole sequence of thread operations, applied in order. -/
def applyOps (s : AgentState) (ops : List ThreadOp) : AgentState :=
  ops.foldl applyOp s

/-! ### Per-turn transition ceiling -/

/-- The recursion limit the orchestrator passes on every invocation:
`app.invoke(state, {**config, "recursion_limit": 10})`
(02_router_handoff_tools.py line 286, router_handoff_command.py line 219). -/
def recursion_limit : Nat := 10

/-- A routing decision inside one user turn: transfer to an agent, or the
terminate sentinel. -/
inductive Decision where
  | route (agent : String)
  | terminate
  deriving DecidableEq, Repr

/-- Phase of the per-turn state machine of the spec. -/
inductive TurnPhase where
  | routing
  | agentActive (agent : String)
  | terminated
  deriving DecidableEq, Repr

/-- The fatal per-turn ceiling error. -/
inductive TurnError where
  | recursionLimitExceeded
  deriving DecidableEq, Repr

/-- Modelled from the spec: enforcement of the recursion limit lives in the
external orchestration library; this is the spec's per-turn state machine with
the ceiling taken from the `recursion_limit` the source passes to `invoke`.
Starting at ROUTING with `n` transitions already performed, each `route`
decision performs one ROUTING→AGENT_ACTIVE transition (the agent then returns
to ROUTING) when the count is still below the ceiling, and otherwise fails the
turn with RecursionLimitExceeded; `terminate` moves to TERMINATED.  The result
is the final transition count together with the outcome. -/
def runTurn : List Decision → Nat → Nat × Except TurnError TurnPhase
  | [], n => (n, Except.ok TurnPhase.routing)
  | Decision.terminate :: _, n => (n, Except.ok TurnPhase.terminated)
  | Decision.route _ :: ds, n =>
    if n < recursion_limit then runTurn ds (n + 1)
    else (n, Except.error TurnError.recursionLimitExceeded)

/-! ### Substring occurrence (for prompt-enumeration facts) -/

/-- Whether `pat` occurs as a contiguous run of `s`. -/
def containsSub (s : List Char) (pat : List Char) : Bool :=
  match s with
  | [] => pat.isEmpty
  | _ :: t => pat.isPrefixOf s || containsSub t pat

/-- Whether the string `pat` occurs inside the string `s`. -/
def strContains (s pat : String) : Bool := containsSub s.toList pat.toList

/-! ### Helper lemmas -/

/-- The default registry registers exactly the three default agent names, in
registration order. -/
theorem default_registry_names :
    create_default_registry.get_agent_names =
      ["support_agent", "research_agent", "manager_agent"] := rfl

/-- Looking up a key absent from an association list yields `none`. -/
theorem assocLookup_eq_none_of_not_mem (n : String) :
    ∀ l : List (String × AgentConfig), n ∉ l.map Prod.fst → assocLookup n l = none := by
  intro l
  induction l with
  | nil => intro _; rfl
  | cons p rest ih =>
    intro h
    simp only [List.map_cons, List.mem_cons] at h
    push_neg at h
    simp only [assocLookup, if_neg (Ne.symm h.1), ih h.2]

/-- Looking up the just-inserted key yields the just-inserted value. -/
theorem assocLookup_dictInsert (k : String) (v : AgentConfig) :
    ∀ l : List (String × AgentConfig), assocLookup k (dictInsert k v l) = some v := by
  intro l
  induction l with
  | nil => simp [dictInsert, assocLookup]
  | cons p rest ih =>
    by_cases h : p.1 = k
    · simp [dictInsert, h, assocLookup]
    · simp only [dictInsert]
      rw [if_neg (by exact fun hk => h (by simpa using hk))]
      simp only [assocLookup, if_neg h, ih]

/-- Inserting at a key that is already present leaves the key sequence
unchanged (Python dict update semantics). -/
theorem keys_dictInsert_of_mem (k : String) (v : AgentConfig) :
    ∀ l : List (String × AgentConfig), k ∈ l.map Prod.fst →
      (dictInsert k v l).map Prod.fst = l.map Prod.fst := by
  intro l
  induction l with
  | nil => intro h; simp at h
  | cons p rest ih =>
    intro h
    by_cases hp : p.1 = k
    · simp [dictInsert, hp]
    · have hmem : k ∈ rest.map Prod.fst := by
        simp only [List.map_cons, List.mem_cons] at h
        rcases h with h | h
        · exact absurd h.symm hp
        · exact h
      simp only [dictInsert]
      rw [if_neg (by exact fun hk => hp (by simpa using hk))]
      simp [ih hmem]

/-- Every single thread operation only appends to the message list. -/
theorem applyOp_messages (s : AgentState) (op : ThreadOp) :
    ∃ appended, (applyOp s op).messages = s.messages ++ appended := by
  cases op with
  | userTurn m => exact ⟨[m], rfl⟩
  | routerCommand cmd => exact ⟨[], by simp [applyOp, applyRouterCommand]⟩
  | agentReply name content => exact ⟨_, rfl⟩
  | handoffTransfer agent tool_call_id => exact ⟨_, rfl⟩

/-- Any operation sequence only appends to the message list. -/
theorem applyOps_messages (ops : List ThreadOp) :
    ∀ s : AgentState, ∃ appended, (applyOps s ops).messages = s.messages ++ appended := by
  induction ops with
  | nil => intro s; exact ⟨[], by simp [applyOps]⟩
  | cons op rest ih =>
    intro s
    obtain ⟨t₁, h₁⟩ := applyOp_messages s op
    obtain ⟨t₂, h₂⟩ := ih (applyOp s op)
    exact ⟨t₁ ++ t₂, by simp [applyOps] at h₂ ⊢; rw [h₂, h₁, List.append_assoc]⟩

/-- The transition counter of a turn run never passes the ceiling. -/
theorem runTurn_count_le (ds : List Decision) :
    ∀ n : Nat, n ≤ recursion_limit → (runTurn ds n).1 ≤ recursion_limit := by
  induction ds with
  | nil => intro n h; exact h
  | cons d rest ih =>
    intro n h
    cases d with
    | terminate => exact h
    | route agent =>
      simp only [runTurn]
      by_cases hlt : n < recursion_limit
      · rw [if_pos hlt]; exact ih (n + 1) hlt
      · rw [if_neg hlt]; exact h

/-- Feeding more `route` decisions than the ceiling allows fails the turn with
RecursionLimitExceeded at the ceiling. -/
theorem runTurn_replicate_route (agent : String) :
    ∀ (k n : Nat), recursion_limit < k + n → n ≤ recursion_limit →
      runTurn (List.replicate k (Decision.route agent)) n =
        (recursion_limit, Except.error TurnError.recursionLimitExceeded) := by
  intro k
  induction k with
  | zero => intro n h1 h2; omega
  | succ k ih =>
    intro n h1 h2
    rw [List.replicate_succ]
    simp only [runTurn]
    by_cases hlt : n < recursion_limit
    · rw [if_pos hlt]
      exact ih (n + 1) (by omega) (by omega)
    · rw [if_neg hlt]
      have : n = recursion_limit := by omega
      rw [this]

/-! ### Claim theorems -/

/-- Claim C1: in Strategy A, when the decision service returns a label that is
neither a registered agent name nor the terminate sentinel, the router step
fails with RoutingProtocolViolation and the thread state is returned exactly
unchanged — it never silently defaults to some agent. -/
theorem router_rejects_unregistered_label (s : AgentState) (label reasoning : String)
    (hname : label ∉ create_default_registry.get_agent_names) (hend : label ≠ ENDNode) :
    processTurn s label reasoning = (s, some RouterError.routingProtocolViolation) := by
  rw [default_registry_names] at hname
  have hlit : label ∉ nextAgentLiterals := by
    simp only [nextAgentLiterals, List.mem_cons, List.not_mem_nil, or_false] at *
    simp only [ENDNode] at hend
    tauto
  simp [processTurn, router, parseNextAgent, hlit]

/-- Witness for C1: the unregistered label "billing_agent" is rejected and the
thread state is returned untouched. -/
theorem router_rejects_unregistered_label_witness :
    processTurn { messages := [humanMsg "Please fix my invoice"], current_agent := "Support Agent" }
        "billing_agent" "invoice question" =
      ({ messages := [humanMsg "Please fix my invoice"], current_agent := "Support Agent" },
        some RouterError.routingProtocolViolation) :=
  router_rejects_unregistered_label _ "billing_agent" "invoice question" (by decide) (by decide)

/-- A fourth agent configuration, used to exercise registration beyond the
default registry. -/
def billingAgentConfig : AgentConfig :=
  { name := "billing_agent"
    description := "Transfer to billing agent for invoices."
    system_message := "You are a Billing Agent."
    emoji := "🤖" }

/-- Counterexample to claim C2: it is not the case that for every registry the
Strategy-A admissible label set equals the registry name set plus the
terminate sentinel — after registering "billing_agent" the registry contains
it, but the hardcoded `NextAgent` literal set does not. -/
theorem strategyA_labels_not_from_registry :
    ¬ ∀ (r : AgentRegistry) (label : String),
        label ∈ nextAgentLiterals ↔ (label ∈ r.get_agent_names ∨ label = ENDNode) := by
  intro h
  have h2 := (h (create_default_registry.register_agent billingAgentConfig)
    "billing_agent").mpr (Or.inl (by decide))
  exact absurd h2 (by decide)

/-- Claim C2 (amended): the Strategy-A admissible label set is the hardcoded
`NextAgent` literal list; it equals the DEFAULT registry's name set plus the
terminate sentinel, but it is not derived from the registry, so registering a
further agent does not extend it. -/
theorem strategyA_labels_default_registry :
    nextAgentLiterals = create_default_registry.get_agent_names ++ [ENDNode] ∧
    nextAgentLiterals =
      nextAgentLiterals.inter
        ((create_default_registry.register_agent billingAgentConfig).get_agent_names
          ++ [ENDNode]) := by
  exact ⟨rfl, by decide⟩

/-- Counterexample to claim C3: an agent function produced by
`create_agent_function` has no exception handler around the generation call,
so on a failing service the invocation surfaces the error instead of a
descriptor-specific fallback turn — the exception escapes to the caller. -/
theorem agent_function_error_escapes :
    agent_function supportAgentConfig (fun _ => Except.error ServiceError.networkError)
        [humanMsg "I need help with my account"] =
      Except.error ServiceError.networkError := rfl

/-- Claim C3 (amended): the three tool-style agents of 03_agent_handoff_tools.py
absorb any generation-service failure into their descriptor-specific canned
fallback turn (no exception escapes), while the agent functions produced by
`create_agent_function` propagate the failure to the caller. -/
theorem service_failure_fallbacks (svc : Service) (messages : List Msg) (e : ServiceError) :
    (svc (systemMsg supportToolSystemMessage :: relevantMessages messages) = Except.error e →
      support_agent svc messages =
        { reply := supportFallback, current_agent := "Support Agent" }) ∧
    (svc (systemMsg researchToolSystemMessage :: relevantMessages messages) = Except.error e →
      research_agent svc messages =
        { reply := researchFallback, current_agent := "Research Agent" }) ∧
    (svc (systemMsg managerToolSystemMessage :: relevantMessages messages) = Except.error e →
      manager_agent svc messages =
        { reply := managerFallback, current_agent := "Manager Agent" }) ∧
    ∀ (cfg : AgentConfig) (user_request : Msg),
      (messages.filter isHuman).getLast? = some user_request →
      svc (agentFnRequest cfg user_request) = Except.error e →
      agent_function cfg svc messages = Except.error e := by
  refine ⟨fun h => ?_, fun h => ?_, fun h => ?_, fun cfg u hu hsvc => ?_⟩
  · simp [support_agent, h]
  · simp [research_agent, h]
  · simp [manager_agent, h]
  · simp [agent_function, hu, hsvc]

/-- Witness for C3 (amended): with a service that always fails with a network
error, the support agent returns exactly its canned fallback turn. -/
theorem service_failure_fallbacks_witness :
    support_agent (fun _ => Except.error ServiceError.networkError) [humanMsg "hi"] =
      { reply := supportFallback, current_agent := "Support Agent" } :=
  (service_failure_fallbacks (fun _ => Except.error ServiceError.networkError)
    [humanMsg "hi"] ServiceError.networkError).1 rfl

/-- Counterexample to claim C4: looking up a name absent from the registry does
not fail with an error — `get_agent_config` returns the sentinel `none`. -/
theorem lookup_absent_not_error :
    ¬ ∀ (r : AgentRegistry) (name : String),
        name ∉ r.get_agent_names → r.get_agent_config name ≠ none := by
  intro h
  exact h create_default_registry "billing_agent" (by decide) rfl

/-- Claim C4 (amended): for every name not present in the registry, lookup
returns the sentinel value `none` (Python `dict.get` semantics); no error is
raised. -/
theorem lookup_absent_returns_none (r : AgentRegistry) (name : String)
    (h : name ∉ r.get_agent_names) : r.get_agent_config name = none :=
  assocLookup_eq_none_of_not_mem name r.agents h

/-- Witness for C4 (amended): the default registry returns `none` for the
absent name "billing_agent". -/
theorem lookup_absent_returns_none_witness :
    create_default_registry.get_agent_config "billing_agent" = none :=
  lookup_absent_returns_none create_default_registry "billing_agent" (by decide)

/-- Claim C5: registering a configuration whose name is already present
silently overwrites the existing entry — afterwards the name maps to the new
configuration, no error is raised (`register_agent` is total), and the
registered name sequence (hence its count) is unchanged. -/
theorem register_existing_overwrites (r : AgentRegistry) (cfg : AgentConfig)
    (h : cfg.name ∈ r.get_agent_names) :
    (r.register_agent cfg).get_agent_config cfg.name = some cfg ∧
    (r.register_agent cfg).get_agent_names = r.get_agent_names :=
  ⟨assocLookup_dictInsert cfg.name cfg r.agents,
   keys_dictInsert_of_mem cfg.name cfg r.agents h⟩

/-- A replacement support-agent configuration sharing the registered name. -/
def supportAgentConfigV2 : AgentConfig :=
  { supportAgentConfig with description := "Transfer to support agent, updated." }

/-- Witness for C5: re-registering a modified support configuration in the
default registry overwrites the entry and keeps the name list unchanged. -/
theorem register_existing_overwrites_witness :
    (create_default_registry.register_agent supportAgentConfigV2).get_agent_config
        supportAgentConfigV2.name = some supportAgentConfigV2 ∧
    (create_default_registry.register_agent supportAgentConfigV2).get_agent_names =
      create_default_registry.get_agent_names :=
  register_existing_overwrites create_default_registry supportAgentConfigV2 (by decide)

/-- Claim C6: within one user turn, the count of ROUTING→AGENT_ACTIVE
transitions never exceeds the configured ceiling of 10, and a run asked to
perform more than the ceiling fails with RecursionLimitExceeded at the
ceiling — never a silent extra agent call or silent truncation. -/
theorem routing_transition_ceiling :
    (∀ (ds : List Decision), (runTurn ds 0).1 ≤ recursion_limit) ∧
    ∀ (agent : String) (k : Nat), recursion_limit < k →
      runTurn (List.replicate k (Decision.route agent)) 0 =
        (recursion_limit, Except.error TurnError.recursionLimitExceeded) :=
  ⟨fun ds => runTurn_count_le ds 0 (Nat.zero_le _),
   fun agent k hk => runTurn_replicate_route agent k 0 (by omega) (Nat.zero_le _)⟩

/-- Witness for C6: eleven consecutive routing decisions stop with
RecursionLimitExceeded after exactly ten performed transitions. -/
theorem routing_transition_ceiling_witness :
    runTurn (List.replicate 11 (Decision.route "support_agent")) 0 =
      (recursion_limit, Except.error TurnError.recursionLimitExceeded) :=
  routing_transition_ceiling.2 "support_agent" 11 (by decide)

/-- Claim C7: in Strategy B, every registered agent name has a transfer tool
named exactly `transfer_to_<agentName>`, and running it yields a command
targeting that agent with the synthetic acknowledgement tool message
("Successfully transferred to <agentName>", carrying the invoking tool-call
id) appended to the conversation. -/
theorem handoff_tool_per_agent (r : AgentRegistry) (agent : String)
    (h : agent ∈ r.get_agent_names) :
    ∃ t ∈ create_handoff_tools r, t.name = "transfer_to_" ++ agent ∧
      ∀ (messages : List Msg) (tool_call_id : String),
        t.run messages tool_call_id =
          { goto := agent
            updateMessages := messages ++
              [{ role := Role.tool
                 content := "Successfully transferred to " ++ agent
                 name := some ("transfer_to_" ++ agent)
                 tool_call_id := some tool_call_id }]
            parentGraph := true } := by
  simp only [AgentRegistry.get_agent_names, List.mem_map] at h
  obtain ⟨p, hp, hname⟩ := h
  refine ⟨create_handoff_tool p.1 (some p.2.description), ?_, ?_, ?_⟩
  · exact List.mem_map_of_mem _ hp
  · rw [hname]
    rfl
  · intro messages tool_call_id
    rw [← hname]
    rfl

/-- Witness for C7: the default registry yields a transfer tool for
"support_agent" with the specified name and acknowledgement behaviour. -/
theorem handoff_tool_per_agent_witness :
    ∃ t ∈ create_handoff_tools create_default_registry,
      t.name = "transfer_to_" ++ "support_agent" ∧
      ∀ (messages : List Msg) (tool_call_id : String),
        t.run messages tool_call_id =
          { goto := "support_agent"
            updateMessages := messages ++
              [{ role := Role.tool
                 content := "Successfully transferred to " ++ "support_agent"
                 name := some ("transfer_to_" ++ "support_agent")
                 tool_call_id := some tool_call_id }]
            parentGraph := true } :=
  handoff_tool_per_agent create_default_registry "support_agent" (by decide)

set_option maxRecDepth 10000 in
/-- Claim C8: the Strategy-A decision request is the router system prompt
followed by exactly the last 3 turns of the conversation and nothing earlier;
the prompt's fixed text enumerates every default registered agent name and the
terminate sentinel around the interpolated current agent. -/
theorem strategyA_request_window (s : AgentState) :
    routerRequest s = systemMsg (routerSystemPrompt s.current_agent) :: takeLast 3 s.messages ∧
    (∃ earlier, s.messages = earlier ++ takeLast 3 s.messages) ∧
    (takeLast 3 s.messages).length = min 3 s.messages.length ∧
    routerSystemPrompt s.current_agent = routerPromptHead ++ s.current_agent ++ routerPromptTail ∧
    (create_default_registry.get_agent_names).all (fun n => strContains routerPromptHead n) = true ∧
    strContains routerPromptTail ENDNode = true := by
  refine ⟨rfl, ⟨s.messages.take (s.messages.length - 3), ?_⟩, ?_, rfl, by decide, by decide⟩
  · rw [takeLast, List.take_append_drop]
  · simp only [takeLast, List.length_drop]
    omega

/-- Claim C9: the message list of a thread is append-only — across any sequence
of thread operations the existing turns remain an unchanged prefix and the
length is monotonically non-decreasing. -/
theorem thread_append_only (s : AgentState) (ops : List ThreadOp) :
    (∃ appended, (applyOps s ops).messages = s.messages ++ appended) ∧
    s.messages.length ≤ (applyOps s ops).messages.length := by
  obtain ⟨t, ht⟩ := applyOps_messages ops s
  exact ⟨⟨t, ht⟩, by rw [ht]; simp⟩

/-- Claim C10: when the state carries no user (human) message, an agent
function created from a configuration returns the bare string
"No user message found." instead of a messages state update. -/
theorem no_user_message_bare_string (cfg : AgentConfig) (svc : Service) (messages : List Msg)
    (h : messages.filter isHuman = []) :
    agent_function cfg svc messages = Except.ok (AgentFnResult.bare "No user message found.") := by
  simp [agent_function, h]

/-- Witness for C10: a conversation holding only a system and an assistant
message yields the bare string. -/
theorem no_user_message_bare_string_witness :
    agent_function supportAgentConfig (fun _ => Except.error ServiceError.networkError)
        [systemMsg "setup", aiMsg "hello"] =
      Except.ok (AgentFnResult.bare "No user message found.") :=
  no_user_message_bare_string supportAgentConfig
    (fun _ => Except.error ServiceError.networkError) [systemMsg "setup", aiMsg "hello"] rfl

end AgentHandoff
